import Mathlib

/-!
Verification development for the plot-planning calculator repository.

The repository contains several near-duplicate React components; the
arithmetic and placement logic relevant here lives in:
* `src/unnamed/part_000` — the compliance-variant calculator
  (`handleChange`, `calculations` with `Math.max(0, …)` clamps and
  footprint clamping);
* `src/src/App.jsx` and `src/unnamed/part_003` — the floor-list variant
  (`calculations` without the `Math.max(0, …)` clamp on the buildable
  dimensions, `checkCollision`, `handlePositionChange`, `handleItemChange`);
* `src/src/components/DraggableSVGItem.jsx` and the `PlotDiagramSVG`
  components — the drag-session clamp (`handleDragMove` plus the
  `constraints` object built in `PlotDiagramSVG`).

JavaScript numbers are modelled as `Option ℚ`, where `none` stands for
`NaN`; all arithmetic that can meet `NaN` is expressed through the `j*`
combinators below, which propagate `none` exactly the way the JS
operators and `Math.max`/`Math.min` propagate `NaN`.  Fields that the
source guards with `parseFloat(x) || 0` are collapsed to plain `ℚ` via
`qOrZero`.
-/

namespace PlotApp

/-- A JavaScript number: `none` models `NaN`, `some q` a (finite) number.
All numeric strings appearing in the app parse to finite decimals, so
infinities never arise on the paths modelled here. -/
abbrev JNum := Option ℚ

/-- `parseFloat(x) || 0` (also `x || 0` on a number): `NaN` is falsy and
is replaced by `0`; `0` itself is falsy but is replaced by the same `0`. -/
def qOrZero (v : JNum) : ℚ := v.getD 0

/-- JS `+` on numbers: `NaN` propagates. -/
def jadd : JNum → JNum → JNum
  | some a, some b => some (a + b)
  | _, _ => none

/-- JS `-` on numbers: `NaN` propagates. -/
def jsub : JNum → JNum → JNum
  | some a, some b => some (a - b)
  | _, _ => none

/-- JS `*` on numbers: `NaN` propagates. -/
def jmul : JNum → JNum → JNum
  | some a, some b => some (a * b)
  | _, _ => none

/-- JS `/` on numbers: `NaN` propagates.  Division by zero yields an
infinity in JS; every division in the sources is guarded by a strict
positivity test on the divisor, so that case is unreachable and mapped
to `none` here. -/
def jdiv : JNum → JNum → JNum
  | some a, some b => if b = 0 then none else some (a / b)
  | _, _ => none

/-- JS `Math.max`: returns `NaN` if any argument is `NaN`. -/
def jmax : JNum → JNum → JNum
  | some a, some b => some (max a b)
  | _, _ => none

/-- JS `a > b`: any comparison with `NaN` is `false`. -/
def jgt : JNum → JNum → Bool
  | some a, some b => decide (b < a)
  | _, _ => false

/-- A plot-local position in feet (top-left corner of an item). -/
structure Pos where
  x : ℚ
  y : ℚ
  deriving DecidableEq, Repr

/-- A placeable item from the `items` map of `src/unnamed/part_003`
(`house`, `staircase`, `lift`, `parking`): enabled flag, raw width and
length fields (strings typed into the form parse to `JNum`), and the
authoritative position.  The presentational fields (`description`,
`facing`) play no role in the claims and are omitted. -/
structure Item where
  enabled : Bool
  width : JNum
  length : JNum
  position : Pos
  deriving DecidableEq

/-- `checkCollision` from `src/unnamed/part_003` lines 4–8: axis-aligned
bounding-box overlap, with widths/heights read through
`parseFloat(…) || 0`. -/
def checkCollision (item1 item2 : Item) : Bool :=
  let r1w := qOrZero item1.width
  let r1h := qOrZero item1.length
  let r2w := qOrZero item2.width
  let r2h := qOrZero item2.length
  decide (item1.position.x < item2.position.x + r2w) &&
  decide (item1.position.x + r1w > item2.position.x) &&
  decide (item1.position.y < item2.position.y + r2h) &&
  decide (item1.position.y + r1h > item2.position.y)

/-- The keys of the `items` object in `src/unnamed/part_003`
(`INITIAL_STATE.items`): the item set is fixed to these four. -/
inductive ItemKey where
  | house
  | staircase
  | lift
  | parking
  deriving DecidableEq, Repr

/-- The item map, as the ordered key/value entries of the `items`
object (`for … in` and `Object.entries` iterate them in this order). -/
abbrev Items := List (ItemKey × Item)

/-- `items[itemName]` — object property access on the entry list. -/
def getItem : Items → ItemKey → Option Item
  | [], _ => none
  | p :: rest, key => if p.1 = key then some p.2 else getItem rest key

/-- The collision loop shared by `handlePositionChange` and
`handleItemChange` (`src/unnamed/part_003` lines 66–68 and 74–80):
`candidate` collides with some entry of `items` whose key differs from
`key` and whose `enabled` flag is set. -/
def collidesWithOther (items : Items) (key : ItemKey) (candidate : Item) : Bool :=
  items.any (fun p => decide (p.1 ≠ key) && p.2.enabled && checkCollision candidate p.2)

/-- `handlePositionChange` from `src/unnamed/part_003` lines 72–82: the
dragged item's candidate position is tested against every *other*
*enabled* item; on any collision the state update is skipped (the
transient `collisionItemKey` highlight is presentational and not
modelled), otherwise only the dragged item's position is replaced. -/
def handlePositionChange (items : Items) (itemName : ItemKey) (newPosition : Pos) : Items :=
  match getItem items itemName with
  | none => items
  | some it =>
    let currentItem : Item := { it with position := newPosition }
    if collidesWithOther items itemName currentItem
    then items
    else items.map (fun p => if p.1 = itemName then (p.1, { p.2 with position := newPosition }) else p)

/-- The two numeric dimension fields `handleItemChange` validates
(`src/unnamed/part_003` line 65).  The source function also routes other
fields (`enabled`, `description`, …); only the numeric dimension path is
relevant to the claims and is embedded here. -/
inductive DimField where
  | width
  | length
  deriving DecidableEq, Repr

/-- `{ ...items[key], [field]: value }` for a dimension field. -/
def setDim (it : Item) : DimField → JNum → Item
  | .width, v => { it with width := v }
  | .length, v => { it with length := v }

/-- The dimension guard of `handleItemChange` (`src/unnamed/part_003`
line 65): `(field === 'width' && value > calculations.buildableWidth) ||
(field === 'length' && value > calculations.buildableLength)`. -/
def exceedsBuildable (field : DimField) (value : JNum)
    (buildableWidth buildableLength : ℚ) : Bool :=
  match field with
  | .width => jgt value (some buildableWidth)
  | .length => jgt value (some buildableLength)

/-- `handleItemChange` from `src/unnamed/part_003` lines 62–70,
specialised to `field ∈ {width, length}`: the update is dropped when the
new value exceeds the current buildable width/length
(`calculations.buildableWidth`/`buildableLength`, passed in by the
caller), or when the resized item collides with another enabled item;
otherwise the whole updated map is stored. -/
def handleItemChange (items : Items) (key : ItemKey) (field : DimField) (value : JNum)
    (buildableWidth buildableLength : ℚ) : Items :=
  match getItem items key with
  | none => items
  | some it =>
    let currentItem : Item := setDim it field value
    let updatedItems : Items :=
      items.map (fun p => if p.1 = key then (p.1, currentItem) else p)
    if exceedsBuildable field value buildableWidth buildableLength
    then items
    else if collidesWithOther updatedItems key currentItem
    then items
    else updatedItems

/-- The `constraints` object handed to `DraggableSVGItem`
(`PlotDiagramSVG`, `src/unnamed/part_003` line 438 / 842): bounds in SVG
coordinates. -/
structure Constraints where
  x : ℚ
  y : ℚ
  maxX : ℚ
  maxY : ℚ
  deriving DecidableEq, Repr

/-- The clamping step of `handleDragMove`
(`src/src/components/DraggableSVGItem.jsx` lines 28–41): the candidate
position (pointer position minus the grab offset stored at drag start)
is clamped with `Math.max(constraints.x, Math.min(newX, constraints.maxX))`
and symmetrically for y. -/
def handleDragMove (c : Constraints) (candX candY : ℚ) : Pos :=
  ⟨max c.x (min candX c.maxX), max c.y (min candY c.maxY)⟩

/-- The numeric inputs read by `PlotDiagramSVG` (each goes through
`parseFloat(…) || 0`). -/
structure PlotInputs where
  plotWidth : JNum
  plotLength : JNum
  roadWidth : JNum
  setbackFront : JNum
  setbackBack : JNum
  setbackLeft : JNum
  setbackRight : JNum
  deriving DecidableEq, Repr

/-- `scale` in `PlotDiagramSVG` (interactive variant:
`MAX_SVG_DIM = 500`, `PADDING = 60`):
`Math.min(MAX_SVG_DIM / (pW + PADDING), MAX_SVG_DIM / (pL + rW + PADDING))`. -/
def svgScale (i : PlotInputs) : ℚ :=
  min (500 / (qOrZero i.plotWidth + 60))
      (500 / (qOrZero i.plotLength + qOrZero i.roadWidth + 60))

/-- The `constraints` prop built for an item of width `itemW` and length
`itemL` (in feet): `{x: sL*scale, y: sF*scale, maxX: sL*scale + bW − item.width*scale,
maxY: sF*scale + bL − item.length*scale}` with `bW = (pW − sL − sR)*scale`
and `bL = (pL − sF − sB)*scale`. -/
def itemConstraints (i : PlotInputs) (itemW itemL : ℚ) : Constraints :=
  let s := svgScale i
  let sL := qOrZero i.setbackLeft
  let sF := qOrZero i.setbackFront
  let bW := (qOrZero i.plotWidth - sL - qOrZero i.setbackRight) * s
  let bL := (qOrZero i.plotLength - sF - qOrZero i.setbackBack) * s
  ⟨sL * s, sF * s, sL * s + bW - itemW * s, sF * s + bL - itemL * s⟩

/-- One `updateDrag` step for an item of dimensions `itemW × itemL`:
`handleDragMove` clamps the candidate SVG-coordinate position against
the item's constraints, and `onPositionChange` converts the result back
to feet with `{x: pos.x / scale, y: pos.y / scale}`
(`PlotDiagramSVG`, `src/unnamed/part_003` line 438). -/
def updateDrag (i : PlotInputs) (itemW itemL : ℚ) (candX candY : ℚ) : Pos :=
  let s := svgScale i
  let p := handleDragMove (itemConstraints i itemW itemL) candX candY
  ⟨p.x / s, p.y / s⟩

end PlotApp

namespace PlotApp.ComplianceCalc

/-- `handleChange` from `src/unnamed/part_000` lines 48–55, numeric
branch: every numeric field is stored as
`Math.max(0, parseFloat(value) || 0)`, so non-numeric text becomes `0`
and negative numbers are clamped to `0` before any formula runs. -/
def handleChange (value : JNum) : ℚ :=
  max 0 (qOrZero value)

/-- The numeric state fields used by the `calculations` memo of
`src/unnamed/part_000`.  All of them are either compiled-in numeric
defaults or values written by `handleChange`, hence plain rationals. -/
structure Inputs where
  plotWidth : ℚ
  plotLength : ℚ
  setbackFront : ℚ
  setbackBack : ℚ
  setbackLeft : ℚ
  setbackRight : ℚ
  buildingFootprintWidth : ℚ
  buildingFootprintLength : ℚ
  floors : ℚ
  buildingHeightPerFloor : ℚ
  maxGroundCoverageLimit : ℚ
  maxFARLimit : ℚ
  deriving DecidableEq, Repr

/-- The object returned by the `calculations` memo of
`src/unnamed/part_000` lines 105–122. -/
structure Metrics where
  plotArea : ℚ
  buildableArea : ℚ
  groundFloorArea : ℚ
  totalBUA : ℚ
  groundCoverage : ℚ
  far : ℚ
  buildableWidth : ℚ
  buildableLength : ℚ
  actualBuildingWidth : ℚ
  actualBuildingLength : ℚ
  totalBuildingHeight : ℚ
  isGroundCoverageCompliant : Bool
  isFARCompliant : Bool
  isBuildingWithinBuildableArea : Bool
  maxGroundCoverageLimit : ℚ
  maxFARLimit : ℚ
  deriving DecidableEq, Repr

/-- `calculations` from `src/unnamed/part_000` lines 57–123. -/
def calculations (i : Inputs) : Metrics :=
  let plotArea := i.plotWidth * i.plotLength
  let buildableWidth := max 0 (i.plotWidth - i.setbackLeft - i.setbackRight)
  let buildableLength := max 0 (i.plotLength - i.setbackFront - i.setbackBack)
  let buildableArea := buildableWidth * buildableLength
  let actualBuildingWidth := min i.buildingFootprintWidth buildableWidth
  let actualBuildingLength := min i.buildingFootprintLength buildableLength
  let groundFloorArea := actualBuildingWidth * actualBuildingLength
  let totalBUA := groundFloorArea * i.floors
  let groundCoverage := if 0 < plotArea then groundFloorArea / plotArea * 100 else 0
  let far := if 0 < plotArea then totalBUA / plotArea else 0
  let totalBuildingHeight := i.floors * i.buildingHeightPerFloor
  { plotArea := plotArea
    buildableArea := buildableArea
    groundFloorArea := groundFloorArea
    totalBUA := totalBUA
    groundCoverage := groundCoverage
    far := far
    buildableWidth := buildableWidth
    buildableLength := buildableLength
    actualBuildingWidth := actualBuildingWidth
    actualBuildingLength := actualBuildingLength
    totalBuildingHeight := totalBuildingHeight
    isGroundCoverageCompliant := decide (groundCoverage ≤ i.maxGroundCoverageLimit)
    isFARCompliant := decide (far ≤ i.maxFARLimit)
    isBuildingWithinBuildableArea :=
      decide (i.buildingFootprintWidth ≤ buildableWidth) &&
      decide (i.buildingFootprintLength ≤ buildableLength)
    maxGroundCoverageLimit := i.maxGroundCoverageLimit
    maxFARLimit := i.maxFARLimit }

end PlotApp.ComplianceCalc

namespace PlotApp.FloorCalc

open PlotApp

/-- The state fields consumed by the floor-list `calculations` memo of
`src/src/App.jsx` lines 126–156.  Text fields reach the memo unparsed
(`handleInputChange` stores the raw event value), so every numeric
field is the `parseFloat` image of what the user typed: `none` for
non-numeric text. -/
structure Inputs where
  plotWidth : JNum
  plotLength : JNum
  setbackLeft : JNum
  setbackRight : JNum
  setbackFront : JNum
  setbackBack : JNum
  addParking : Bool
  parkingWidth : JNum
  parkingLength : JNum
  addStaircase : Bool
  staircaseWidth : JNum
  staircaseLength : JNum
  addLift : Bool
  liftWidth : JNum
  liftLength : JNum
  deriving DecidableEq, Repr

/-- A floor record; `id` and `name` are presentational and omitted. -/
structure Floor where
  grossArea : JNum
  deriving DecidableEq, Repr

/-- One element of `floorCalculations` (`src/src/App.jsx` lines
144–150); the spread-in floor fields other than `grossArea` are
presentational and omitted. -/
structure FloorRow where
  grossArea : JNum
  netBua : JNum
  parkingDeduction : JNum
  staircaseArea : JNum
  liftArea : JNum
  setbackArea : ℚ
  deriving DecidableEq, Repr

/-- `buildableWidth` from `src/src/App.jsx` line 135 (same formula at
`src/unnamed/part_003` line 43): note the absence of a `Math.max(0, …)`
clamp. -/
def buildableWidth (i : Inputs) : ℚ :=
  qOrZero i.plotWidth - qOrZero i.setbackLeft - qOrZero i.setbackRight

/-- `buildableLength` from `src/src/App.jsx` line 136: no
`Math.max(0, …)` clamp. -/
def buildableLength (i : Inputs) : ℚ :=
  qOrZero i.plotLength - qOrZero i.setbackFront - qOrZero i.setbackBack

/-- `parkingArea` from `src/src/App.jsx` line 140: the item dimensions
are parsed with a bare `parseFloat` (no `|| 0` guard), so non-numeric
text yields `NaN` here. -/
def parkingArea (i : Inputs) : JNum :=
  if i.addParking then jmul i.parkingWidth i.parkingLength else some 0

/-- `staircaseArea` from `src/src/App.jsx` line 141 (bare `parseFloat`). -/
def staircaseArea (i : Inputs) : JNum :=
  if i.addStaircase then jmul i.staircaseWidth i.staircaseLength else some 0

/-- `liftArea` from `src/src/App.jsx` line 142 (bare `parseFloat`). -/
def liftArea (i : Inputs) : JNum :=
  if i.addLift then jmul i.liftWidth i.liftLength else some 0

/-- `floors.map((floor, index) => …)` from `src/src/App.jsx` lines
144–150, with the running `index` made explicit:
`netBua = Math.max(0, gross − (index === 0 ? parkingArea : 0) −
staircaseArea − liftArea − setbackArea)`. -/
def floorRows (pArea sArea lArea : JNum) (setbackArea : ℚ) :
    ℕ → List Floor → List FloorRow
  | _, [] => []
  | index, f :: rest =>
    let gross := qOrZero f.grossArea
    let parkingDeduction := if index = 0 then pArea else some 0
    let netBua :=
      jmax (some 0)
        (jsub (jsub (jsub (jsub (some gross) parkingDeduction) sArea) lArea) (some setbackArea))
    { grossArea := f.grossArea
      netBua := netBua
      parkingDeduction := parkingDeduction
      staircaseArea := sArea
      liftArea := lArea
      setbackArea := setbackArea } :: floorRows pArea sArea lArea setbackArea (index + 1) rest

/-- The object returned by the floor-list `calculations` memo
(`src/src/App.jsx` line 155). -/
structure Metrics where
  plotArea : ℚ
  buildableArea : ℚ
  setbackArea : ℚ
  parkingArea : JNum
  staircaseArea : JNum
  liftArea : JNum
  floorCalculations : List FloorRow
  totalNetBUA : JNum
  far : JNum
  deriving DecidableEq, Repr

/-- `calculations` from `src/src/App.jsx` lines 126–156. -/
def calculations (i : Inputs) (floors : List Floor) : Metrics :=
  let plotArea := qOrZero i.plotWidth * qOrZero i.plotLength
  let buildableArea := buildableWidth i * buildableLength i
  let setbackArea := plotArea - buildableArea
  let pArea := parkingArea i
  let sArea := staircaseArea i
  let lArea := liftArea i
  let floorCalculations := floorRows pArea sArea lArea setbackArea 0 floors
  let totalNetBUA := floorCalculations.foldl (fun sum f => jadd sum f.netBua) (some 0)
  let far := if 0 < plotArea then jdiv totalNetBUA (some plotArea) else some 0
  { plotArea := plotArea
    buildableArea := buildableArea
    setbackArea := setbackArea
    parkingArea := pArea
    staircaseArea := sArea
    liftArea := lArea
    floorCalculations := floorCalculations
    totalNetBUA := totalNetBUA
    far := far }

/-- The keys of the `positions` state of `src/src/App.jsx` lines 93–97
(the features rendered by that variant: staircase, lift, parking). -/
inductive FeatureKey where
  | staircase
  | lift
  | parking
  deriving DecidableEq, Repr

/-- The `positions` state of `src/src/App.jsx` lines 93–97: one
position per feature. -/
structure Positions where
  staircase : Pos
  lift : Pos
  parking : Pos
  deriving DecidableEq, Repr

/-- `handlePositionChange` from `src/src/App.jsx` lines 122–124:
`setPositions(prev => ({...prev, [item]: pos}))` — the new position is
installed unconditionally; this variant performs no collision check. -/
def handlePositionChange (positions : Positions) (item : FeatureKey) (pos : Pos) : Positions :=
  match item with
  | .staircase => { positions with staircase := pos }
  | .lift => { positions with lift := pos }
  | .parking => { positions with parking := pos }

/-- The initial `positions` state of `src/src/App.jsx` lines 93–97:
staircase (10, 10), lift (25, 10), parking (10, 20). -/
def initialPositions : Positions :=
  { staircase := ⟨10, 10⟩
    lift := ⟨25, 10⟩
    parking := ⟨10, 20⟩ }

end PlotApp.FloorCalc

namespace PlotApp

/-- A floor-list-calculator input snapshot with non-negative numeric
values whose setbacks exceed the plot width (plot 10 × 40, left setback
20). -/
def wideSetbackInputs : FloorCalc.Inputs :=
  { plotWidth := some 10
    plotLength := some 40
    setbackLeft := some 20
    setbackRight := some 0
    setbackFront := some 0
    setbackBack := some 0
    addParking := true
    parkingWidth := some 1
    parkingLength := some 1
    addStaircase := true
    staircaseWidth := some 1
    staircaseLength := some 1
    addLift := true
    liftWidth := some 1
    liftLength := some 1 }

/-- Claim C3 counterexample: the floor-list variant of the Calculator
(`src/src/App.jsx` line 135, `src/unnamed/part_003` line 43) computes
`buildableWidth = plotWidth − setbackLeft − setbackRight` without the
`max(0, …)` clamp, so on the non-negative inputs plot 10 × 40 with
setbacks 20/0/0/0 it returns −10 < 0, and its `buildableArea` output is
likewise negative. -/
theorem floorCalc_buildableWidth_negative :
    FloorCalc.buildableWidth wideSetbackInputs = -10 ∧
    ¬ (0 ≤ FloorCalc.buildableWidth wideSetbackInputs) ∧
    (FloorCalc.calculations wideSetbackInputs []).buildableArea = -400 := by
  norm_num [FloorCalc.buildableWidth, FloorCalc.buildableLength, FloorCalc.calculations,
    wideSetbackInputs, qOrZero]

/-- Claim C3 (amended): the compliance-variant Calculator
(`src/unnamed/part_000` lines 73–79) computes
`buildableWidth = max(0, plotWidth − setbackLeft − setbackRight)` and
`buildableLength = max(0, plotLength − setbackFront − setbackBack)`, so
both are non-negative for every input, even when the setbacks sum to
more than the plot dimension. -/
theorem calculations_buildable_clamped_nonneg (i : ComplianceCalc.Inputs) :
    (ComplianceCalc.calculations i).buildableWidth
        = max 0 (i.plotWidth - i.setbackLeft - i.setbackRight) ∧
    (ComplianceCalc.calculations i).buildableLength
        = max 0 (i.plotLength - i.setbackFront - i.setbackBack) ∧
    0 ≤ (ComplianceCalc.calculations i).buildableWidth ∧
    0 ≤ (ComplianceCalc.calculations i).buildableLength :=
  ⟨rfl, rfl, le_max_left 0 _, le_max_left 0 _⟩

/-- Claim C4: when `plotArea = plotWidth × plotLength` is zero, the Calculator
(`src/unnamed/part_000` lines 92–96) takes the guarded `: 0` branch of
both ratio formulas, returning `groundCoverage = 0` and `far = 0`
instead of dividing by zero. -/
theorem calculations_zero_plotArea (i : ComplianceCalc.Inputs)
    (h : i.plotWidth * i.plotLength = 0) :
    (ComplianceCalc.calculations i).groundCoverage = 0 ∧
    (ComplianceCalc.calculations i).far = 0 := by
  simp [ComplianceCalc.calculations, h]

/-- Claim C4 witness: a zero-width plot takes the guarded branch. -/
theorem calculations_zero_plotArea_witness :
    (0 : ℚ) * 100 = 0 ∧
    ((ComplianceCalc.calculations ⟨0, 100, 15, 10, 8, 8, 30, 60, 3, 10, 60, 2⟩).groundCoverage = 0 ∧
     (ComplianceCalc.calculations ⟨0, 100, 15, 10, 8, 8, 30, 60, 3, 10, 60, 2⟩).far = 0) :=
  ⟨by norm_num, calculations_zero_plotArea _ (by norm_num)⟩

/-- Claim C5: the Calculator (`src/unnamed/part_000` lines 81–91) clamps the
requested footprint with `Math.min` instead of rejecting it, so the
actual footprint dimensions never exceed the buildable envelope. -/
theorem calculations_footprint_clamped (i : ComplianceCalc.Inputs) :
    (ComplianceCalc.calculations i).actualBuildingWidth
        = min i.buildingFootprintWidth (ComplianceCalc.calculations i).buildableWidth ∧
    (ComplianceCalc.calculations i).actualBuildingLength
        = min i.buildingFootprintLength (ComplianceCalc.calculations i).buildableLength ∧
    (ComplianceCalc.calculations i).actualBuildingWidth
        ≤ (ComplianceCalc.calculations i).buildableWidth ∧
    (ComplianceCalc.calculations i).actualBuildingLength
        ≤ (ComplianceCalc.calculations i).buildableLength :=
  ⟨rfl, rfl, min_le_right _ _, min_le_right _ _⟩

/-- Claim C6: `isBuildingWithinBuildableArea` (`src/unnamed/part_000` lines
101–103) compares the *requested* footprint dimensions against the
buildable envelope, and there are inputs (requested 100 × 100 on a
60 × 40 plot with setbacks 5) where the flag is false although the
clamped actual footprint fits the envelope. -/
theorem calculations_compliance_flag_uses_requested :
    (∀ i : ComplianceCalc.Inputs,
      (ComplianceCalc.calculations i).isBuildingWithinBuildableArea = true ↔
        (i.buildingFootprintWidth ≤ (ComplianceCalc.calculations i).buildableWidth ∧
         i.buildingFootprintLength ≤ (ComplianceCalc.calculations i).buildableLength)) ∧
    (∃ i : ComplianceCalc.Inputs,
      (ComplianceCalc.calculations i).isBuildingWithinBuildableArea = false ∧
      (ComplianceCalc.calculations i).actualBuildingWidth
          ≤ (ComplianceCalc.calculations i).buildableWidth ∧
      (ComplianceCalc.calculations i).actualBuildingLength
          ≤ (ComplianceCalc.calculations i).buildableLength) := by
  constructor
  · intro i
    simp [ComplianceCalc.calculations]
  · refine ⟨⟨60, 40, 5, 5, 5, 5, 100, 100, 3, 10, 60, 2⟩, ?_, min_le_right _ _, min_le_right _ _⟩
    norm_num [ComplianceCalc.calculations]

/-- Row `n` of `floorRows` started at `index = idx` carries the
deductions for absolute index `idx + n`. -/
theorem floorRows_get (pAj sAj lAj : JNum) (sbA : ℚ) :
    ∀ (fs : List FloorCalc.Floor) (idx n : ℕ) (row : FloorCalc.FloorRow),
      (FloorCalc.floorRows pAj sAj lAj sbA idx fs).get? n = some row →
      ∃ f, fs.get? n = some f ∧
        row.grossArea = f.grossArea ∧
        row.parkingDeduction = (if idx + n = 0 then pAj else some 0) ∧
        row.staircaseArea = sAj ∧
        row.liftArea = lAj ∧
        row.setbackArea = sbA ∧
        row.netBua = jmax (some 0)
          (jsub (jsub (jsub (jsub (some (qOrZero f.grossArea)) row.parkingDeduction) sAj) lAj)
            (some sbA)) := by
  intro fs
  induction fs with
  | nil => intro idx n row h; simp [FloorCalc.floorRows] at h
  | cons f rest ih =>
    intro idx n row h
    cases n with
    | zero =>
      rw [FloorCalc.floorRows] at h
      simp only [List.get?_cons_zero, Option.some.injEq] at h
      subst h
      exact ⟨f, rfl, rfl, rfl, rfl, rfl, rfl, rfl⟩
    | succ m =>
      rw [FloorCalc.floorRows] at h
      simp only [List.get?_cons_succ] at h
      obtain ⟨g, hg, hrest⟩ := ih (idx + 1) m row h
      refine ⟨g, by simpa using hg, ?_⟩
      have : idx + 1 + m = idx + (m + 1) := by omega
      rw [this] at hrest
      have hne : idx + (m + 1) ≠ 0 := by omega
      simpa [hne] using hrest

/-- Claim C7: in the floor-list deduction mode (`src/src/App.jsx` lines
144–152, `src/unnamed/part_003` lines 49–54), every floor's
`netBua = max(0, grossArea − parkingDeduction − staircaseArea −
liftArea − setbackArea)` where the parking deduction applies only to
the floor at index 0 and `setbackArea = plotArea − buildableArea` is
subtracted from every floor's gross area, not only once. -/
theorem floorCalc_netBua_per_floor (i : FloorCalc.Inputs) (floors : List FloorCalc.Floor)
    (pA sA lA : ℚ)
    (hp : FloorCalc.parkingArea i = some pA)
    (hs : FloorCalc.staircaseArea i = some sA)
    (hl : FloorCalc.liftArea i = some lA)
    (n : ℕ) (row : FloorCalc.FloorRow)
    (hrow : (FloorCalc.calculations i floors).floorCalculations.get? n = some row) :
    ∃ f, floors.get? n = some f ∧
      row.netBua = some (max 0 (qOrZero f.grossArea
        - (if n = 0 then pA else 0) - sA - lA
        - (qOrZero i.plotWidth * qOrZero i.plotLength
           - FloorCalc.buildableWidth i * FloorCalc.buildableLength i))) ∧
      row.parkingDeduction = some (if n = 0 then pA else 0) ∧
      row.setbackArea = qOrZero i.plotWidth * qOrZero i.plotLength
           - FloorCalc.buildableWidth i * FloorCalc.buildableLength i := by
  have h : (FloorCalc.floorRows (FloorCalc.parkingArea i) (FloorCalc.staircaseArea i)
      (FloorCalc.liftArea i)
      (qOrZero i.plotWidth * qOrZero i.plotLength
        - FloorCalc.buildableWidth i * FloorCalc.buildableLength i) 0 floors).get? n
      = some row := hrow
  obtain ⟨f, hf, _, hpark, _, _, hsb, hnet⟩ := floorRows_get _ _ _ _ floors 0 n row h
  rw [hp] at hpark
  rw [hs, hl] at hnet
  have hpark' : row.parkingDeduction = some (if n = 0 then pA else 0) := by
    rw [hpark]; simp only [Nat.zero_add]; split <;> rfl
  refine ⟨f, hf, ?_, hpark', hsb⟩
  rw [hnet, hpark']
  simp [jsub, jmax]

/-- A small all-numeric floor-list snapshot: plot 10 × 10, no setbacks,
parking 2 × 3, staircase 1 × 1, lift 1 × 1. -/
def smallFloorInputs : FloorCalc.Inputs :=
  { plotWidth := some 10
    plotLength := some 10
    setbackLeft := some 0
    setbackRight := some 0
    setbackFront := some 0
    setbackBack := some 0
    addParking := true
    parkingWidth := some 2
    parkingLength := some 3
    addStaircase := true
    staircaseWidth := some 1
    staircaseLength := some 1
    addLift := true
    liftWidth := some 1
    liftLength := some 1 }

/-- Two floors with gross areas 50 and 20. -/
def smallFloors : List FloorCalc.Floor := [⟨some 50⟩, ⟨some 20⟩]

/-- The expected second row of `floorCalculations` for
`smallFloorInputs`/`smallFloors`: no parking deduction above index 0,
`netBua = 20 − 1 − 1 = 18`. -/
def smallRow1 : FloorCalc.FloorRow :=
  { grossArea := some 20
    netBua := some 18
    parkingDeduction := some 0
    staircaseArea := some 1
    liftArea := some 1
    setbackArea := 0 }

/-- Claim C7 witness: the per-floor formula instantiated at index 1 of the
concrete snapshot. -/
theorem floorCalc_netBua_per_floor_witness :
    (FloorCalc.calculations smallFloorInputs smallFloors).floorCalculations.get? 1
        = some smallRow1 ∧
    smallRow1.netBua = some 18 := by
  have hget : (FloorCalc.calculations smallFloorInputs smallFloors).floorCalculations.get? 1
      = some smallRow1 := by
    norm_num [FloorCalc.calculations, FloorCalc.floorRows, FloorCalc.parkingArea,
      FloorCalc.staircaseArea, FloorCalc.liftArea, FloorCalc.buildableWidth,
      FloorCalc.buildableLength, smallFloorInputs, smallFloors, smallRow1,
      jmul, jsub, jmax, qOrZero]
  refine ⟨hget, ?_⟩
  obtain ⟨f, hf, hnet, -, -⟩ :=
    floorCalc_netBua_per_floor smallFloorInputs smallFloors 6 1 1
      (by norm_num [FloorCalc.parkingArea, smallFloorInputs, jmul])
      (by norm_num [FloorCalc.staircaseArea, smallFloorInputs, jmul])
      (by norm_num [FloorCalc.liftArea, smallFloorInputs, jmul])
      1 smallRow1 hget
  have hf' : f = ⟨some 20⟩ := by simpa [smallFloors] using hf.symm
  subst hf'
  rw [hnet]
  norm_num [FloorCalc.buildableWidth, FloorCalc.buildableLength, smallFloorInputs, qOrZero]

/-- A floor-list snapshot where the user typed a negative plot width
(`-10`) and non-numeric text into the parking width (`parseFloat`
yields `NaN`, modelled as `none`); everything else is numeric and
non-negative. -/
def negPlotInputs : FloorCalc.Inputs :=
  { plotWidth := some (-10)
    plotLength := some 40
    setbackLeft := some 0
    setbackRight := some 0
    setbackFront := some 0
    setbackBack := some 0
    addParking := true
    parkingWidth := none
    parkingLength := some 20
    addStaircase := true
    staircaseWidth := some 1
    staircaseLength := some 1
    addLift := true
    liftWidth := some 1
    liftLength := some 1 }

/-- Claim C8 counterexample: the floor-list variant (`src/src/App.jsx` lines
101–104 store the raw event value; lines 126–143 parse with `parseFloat
… || 0` which keeps negatives, and parse the item dimensions with a bare
`parseFloat`), so a typed `-10` plot width propagates a negative
`plotArea = -400` into the metrics, and a non-numeric parking width
propagates `NaN` into `totalNetBUA`. -/
theorem floorCalc_propagates_negative_and_nan :
    (FloorCalc.calculations negPlotInputs [⟨some 1200⟩]).plotArea = -400 ∧
    ¬ (0 ≤ (FloorCalc.calculations negPlotInputs [⟨some 1200⟩]).plotArea) ∧
    (FloorCalc.calculations negPlotInputs [⟨some 1200⟩]).totalNetBUA = none := by
  norm_num [FloorCalc.calculations, FloorCalc.floorRows, FloorCalc.parkingArea,
    FloorCalc.staircaseArea, FloorCalc.liftArea, FloorCalc.buildableWidth,
    FloorCalc.buildableLength, negPlotInputs, jmul, jsub, jadd, jmax, qOrZero]

/-- All numeric fields of a compliance-calculator input snapshot are
non-negative. -/
def ComplianceCalc.Inputs.Nonneg (i : ComplianceCalc.Inputs) : Prop :=
  0 ≤ i.plotWidth ∧ 0 ≤ i.plotLength ∧
  0 ≤ i.setbackFront ∧ 0 ≤ i.setbackBack ∧ 0 ≤ i.setbackLeft ∧ 0 ≤ i.setbackRight ∧
  0 ≤ i.buildingFootprintWidth ∧ 0 ≤ i.buildingFootprintLength ∧
  0 ≤ i.floors ∧ 0 ≤ i.buildingHeightPerFloor ∧
  0 ≤ i.maxGroundCoverageLimit ∧ 0 ≤ i.maxFARLimit

/-- Claim C8 (amended): in the compliance variant (`src/unnamed/part_000`),
`handleChange` stores `max(0, parseFloat(value) || 0)` for every numeric
field, so non-numeric text and negative numbers both become `0` (never
`NaN`), and on such non-negative fields every numeric output of
`calculations` is non-negative. -/
theorem handleChange_coerces_and_metrics_nonneg (i : ComplianceCalc.Inputs)
    (h : i.Nonneg) :
    (∀ v : JNum, 0 ≤ ComplianceCalc.handleChange v) ∧
    0 ≤ (ComplianceCalc.calculations i).plotArea ∧
    0 ≤ (ComplianceCalc.calculations i).buildableArea ∧
    0 ≤ (ComplianceCalc.calculations i).groundFloorArea ∧
    0 ≤ (ComplianceCalc.calculations i).totalBUA ∧
    0 ≤ (ComplianceCalc.calculations i).groundCoverage ∧
    0 ≤ (ComplianceCalc.calculations i).far ∧
    0 ≤ (ComplianceCalc.calculations i).buildableWidth ∧
    0 ≤ (ComplianceCalc.calculations i).buildableLength ∧
    0 ≤ (ComplianceCalc.calculations i).actualBuildingWidth ∧
    0 ≤ (ComplianceCalc.calculations i).actualBuildingLength ∧
    0 ≤ (ComplianceCalc.calculations i).totalBuildingHeight ∧
    0 ≤ (ComplianceCalc.calculations i).maxGroundCoverageLimit ∧
    0 ≤ (ComplianceCalc.calculations i).maxFARLimit := by
  obtain ⟨hpW, hpL, hsF, hsB, hsL, hsR, hfW, hfL, hfl, hht, hgc, hfar⟩ := h
  have hbW : (0 : ℚ) ≤ max 0 (i.plotWidth - i.setbackLeft - i.setbackRight) := le_max_left _ _
  have hbL : (0 : ℚ) ≤ max 0 (i.plotLength - i.setbackFront - i.setbackBack) := le_max_left _ _
  have haW : (0 : ℚ) ≤ min i.buildingFootprintWidth
      (max 0 (i.plotWidth - i.setbackLeft - i.setbackRight)) := le_min hfW hbW
  have haL : (0 : ℚ) ≤ min i.buildingFootprintLength
      (max 0 (i.plotLength - i.setbackFront - i.setbackBack)) := le_min hfL hbL
  have hgfa := mul_nonneg haW haL
  have hbua := mul_nonneg hgfa hfl
  refine ⟨fun v => le_max_left 0 _, mul_nonneg hpW hpL, mul_nonneg hbW hbL, hgfa, hbua,
    ?_, ?_, hbW, hbL, haW, haL, mul_nonneg hfl hht, hgc, hfar⟩
  · show (0 : ℚ) ≤ if 0 < i.plotWidth * i.plotLength then _ / _ * 100 else 0
    split
    · exact mul_nonneg (div_nonneg hgfa (by linarith)) (by norm_num)
    · exact le_refl 0
  · show (0 : ℚ) ≤ if 0 < i.plotWidth * i.plotLength then _ / _ else 0
    split
    · exact div_nonneg hbua (by linarith)
    · exact le_refl 0

/-- Claim C8 witness: the amended statement at the default snapshot of
`src/unnamed/part_000`. -/
theorem handleChange_coerces_and_metrics_nonneg_witness :
    ComplianceCalc.Inputs.Nonneg ⟨50, 100, 15, 10, 8, 8, 30, 60, 3, 10, 60, 2⟩ ∧
    0 ≤ (ComplianceCalc.calculations ⟨50, 100, 15, 10, 8, 8, 30, 60, 3, 10, 60, 2⟩).far :=
  ⟨by norm_num [ComplianceCalc.Inputs.Nonneg],
   (handleChange_coerces_and_metrics_nonneg _
     (by norm_num [ComplianceCalc.Inputs.Nonneg])).2.2.2.2.2.2.1⟩

/-- Claim C2 counterexample: the other cited implementation of
`handlePositionChange` (`src/src/App.jsx` lines 122–124) installs the
candidate unconditionally — that file contains no collision check.  In
the default state the enabled staircase (10 × 6) moved onto the enabled
lift's 6 × 6 rectangle at (25, 10) overlaps it under the AABB test, yet
the staircase's authoritative position becomes (25, 10) instead of
staying (10, 10). -/
theorem appJsx_handlePositionChange_installs_overlap :
    checkCollision ⟨true, some 10, some 6, ⟨25, 10⟩⟩ ⟨true, some 6, some 6, ⟨25, 10⟩⟩ = true ∧
    (FloorCalc.handlePositionChange FloorCalc.initialPositions .staircase ⟨25, 10⟩).staircase
        = ⟨25, 10⟩ ∧
    (FloorCalc.handlePositionChange FloorCalc.initialPositions .staircase ⟨25, 10⟩).staircase
        ≠ FloorCalc.initialPositions.staircase := by
  refine ⟨by norm_num [checkCollision, qOrZero], rfl, ?_⟩
  norm_num [FloorCalc.handlePositionChange, FloorCalc.initialPositions, Pos.mk.injEq]

/-- Claim C2 (amended): in the `src/unnamed/part_003` placement engine
(lines 72–82), if the dragged item's candidate rectangle overlaps the
current rectangle of another enabled item, `handlePositionChange`
returns before the state update, so the whole item map is unchanged;
the `src/src/App.jsx` variant (lines 122–124) has no collision check
and installs the candidate unconditionally. -/
theorem handlePositionChange_rejects_overlap (items : Items) (a : ItemKey) (itA : Item)
    (newPosition : Pos) (b : ItemKey) (itB : Item)
    (hA : getItem items a = some itA) (hAe : itA.enabled = true)
    (hmem : (b, itB) ∈ items) (hba : b ≠ a) (hBe : itB.enabled = true)
    (hcol : checkCollision { itA with position := newPosition } itB = true) :
    handlePositionChange items a newPosition = items := by
  unfold handlePositionChange
  rw [hA]
  have hany : collidesWithOther items a { itA with position := newPosition } = true := by
    rw [collidesWithOther, List.any_eq_true]
    exact ⟨(b, itB), hmem, by simp [hba, hBe, hcol]⟩
  simp [hany]

/-- `getItem` after the position-update `map` of `handlePositionChange`. -/
theorem getItem_map_update (items : Items) (a : ItemKey) (it : Item) (newPosition : Pos)
    (h : getItem items a = some it) :
    getItem (items.map (fun p => if p.1 = a then (p.1, { p.2 with position := newPosition }) else p)) a
      = some { it with position := newPosition } := by
  induction items with
  | nil => simp [getItem] at h
  | cons p rest ih =>
    by_cases hpa : p.1 = a
    · rw [getItem, if_pos hpa] at h
      obtain rfl : p.2 = it := by injection h
      simp [getItem, hpa]
    · rw [getItem, if_neg hpa] at h
      simp [getItem, hpa, ih h]

/-- Claim C9: disabled items are skipped by the collision loop of
`handlePositionChange` (`items[key].enabled` at `src/unnamed/part_003`
line 75), so a move of A into the former rectangle of a *disabled* item
B succeeds as long as no *enabled* item collides: the map is updated and
A's authoritative position becomes the candidate position. -/
theorem handlePositionChange_skips_disabled (items : Items) (a : ItemKey) (itA : Item)
    (newPosition : Pos) (b : ItemKey) (itB : Item)
    (hA : getItem items a = some itA)
    (hmem : (b, itB) ∈ items) (hba : b ≠ a) (hBdis : itB.enabled = false)
    (hcolB : checkCollision { itA with position := newPosition } itB = true)
    (hno : ∀ p ∈ items, p.1 ≠ a → p.2.enabled = true →
      checkCollision { itA with position := newPosition } p.2 = false) :
    handlePositionChange items a newPosition
        = items.map (fun p => if p.1 = a then (p.1, { p.2 with position := newPosition }) else p) ∧
    getItem (handlePositionChange items a newPosition) a
        = some { itA with position := newPosition } := by
  have hany : collidesWithOther items a { itA with position := newPosition } = false := by
    rw [collidesWithOther, List.any_eq_false]
    intro p hp
    by_cases h1 : p.1 = a
    · simp [h1]
    · cases h2 : p.2.enabled with
      | false => simp [h2]
      | true => simp [h1, h2, hno p hp h1 h2]
  have heq : handlePositionChange items a newPosition
      = items.map (fun p => if p.1 = a then (p.1, { p.2 with position := newPosition }) else p) := by
    unfold handlePositionChange
    rw [hA]
    simp [hany]
  exact ⟨heq, heq ▸ getItem_map_update items a itA newPosition hA⟩

/-- Claim C10 (implicit): `handleItemChange` (`src/unnamed/part_003` lines
62–70) drops a width/length change — leaving the item map unchanged —
both when the new value exceeds the current buildable width/length and
when the resized item, at its current position, would collide with any
other enabled item. -/
theorem handleItemChange_rejects (items : Items) (key : ItemKey) (it : Item)
    (field : DimField) (value : JNum) (buildableWidth buildableLength : ℚ)
    (hk : getItem items key = some it)
    (hrej : exceedsBuildable field value buildableWidth buildableLength = true
          ∨ ∃ p ∈ items, p.1 ≠ key ∧ p.2.enabled = true ∧
              checkCollision (setDim it field value) p.2 = true) :
    handleItemChange items key field value buildableWidth buildableLength = items := by
  unfold handleItemChange
  rw [hk]
  rcases hrej with hdim | ⟨p, hp, hne, hen, hcol⟩
  · simp [hdim]
  · by_cases hdim : exceedsBuildable field value buildableWidth buildableLength = true
    · simp [hdim]
    · have hmapped :
          (fun q : ItemKey × Item => if q.1 = key then (q.1, setDim it field value) else q) p
            = p := if_neg hne
      have hany : collidesWithOther
          (items.map (fun q => if q.1 = key then (q.1, setDim it field value) else q))
          key (setDim it field value) = true := by
        rw [collidesWithOther, List.any_eq_true]
        exact ⟨p, List.mem_map.mpr ⟨p, hp, hmapped⟩, by simp [hne, hen, hcol]⟩
      simp [hdim, hany]

/-- `Math.max(lo·s, Math.min(v, lo·s + bW·s − w·s)) / s` lies between
`lo` and `lo + bW − w` whenever the scale is positive and the item fits
(`w ≤ bW`). -/
theorem clampDiv_bounds (lo bW w v s : ℚ) (hs : 0 < s) (hfit : w ≤ bW) :
    lo ≤ max (lo * s) (min v (lo * s + bW * s - w * s)) / s ∧
    max (lo * s) (min v (lo * s + bW * s - w * s)) / s + w ≤ lo + bW := by
  have h1 : lo * s + bW * s - w * s = (lo + bW - w) * s := by ring
  rw [h1]
  constructor
  · rw [le_div_iff hs]
    exact le_max_left _ _
  · have h2 : max (lo * s) (min v ((lo + bW - w) * s)) / s ≤ lo + bW - w := by
      rw [div_le_iff hs]
      exact max_le (mul_le_mul_of_nonneg_right (by linarith) hs.le) (min_le_right _ _)
    linarith

/-- Claim C1 (amended): whenever the item fits inside the buildable envelope
(`itemW ≤ plotWidth − setbackLeft − setbackRight` and symmetrically for
the length) and the plot inputs are non-negative, `updateDrag` clamps
every candidate position so that the full item rectangle stays inside
the envelope: `x ∈ [setbackLeft, plotWidth − setbackRight − itemW]` and
`y ∈ [setbackFront, plotLength − setbackBack − itemL]` in feet. -/
theorem updateDrag_within_envelope (i : PlotInputs) (itemW itemL candX candY : ℚ)
    (hpW : 0 ≤ qOrZero i.plotWidth) (hpL : 0 ≤ qOrZero i.plotLength)
    (hrW : 0 ≤ qOrZero i.roadWidth)
    (hfitW : itemW ≤ qOrZero i.plotWidth - qOrZero i.setbackLeft - qOrZero i.setbackRight)
    (hfitL : itemL ≤ qOrZero i.plotLength - qOrZero i.setbackFront - qOrZero i.setbackBack) :
    qOrZero i.setbackLeft ≤ (updateDrag i itemW itemL candX candY).x ∧
    (updateDrag i itemW itemL candX candY).x + itemW
        ≤ qOrZero i.plotWidth - qOrZero i.setbackRight ∧
    qOrZero i.setbackFront ≤ (updateDrag i itemW itemL candX candY).y ∧
    (updateDrag i itemW itemL candX candY).y + itemL
        ≤ qOrZero i.plotLength - qOrZero i.setbackBack := by
  have hs : 0 < svgScale i := by
    unfold svgScale
    apply lt_min
    · exact div_pos (by norm_num) (by linarith)
    · exact div_pos (by norm_num) (by linarith)
  unfold updateDrag handleDragMove itemConstraints
  simp only
  obtain ⟨hx1, hx2⟩ := clampDiv_bounds (qOrZero i.setbackLeft)
    (qOrZero i.plotWidth - qOrZero i.setbackLeft - qOrZero i.setbackRight) itemW candX
    (svgScale i) hs hfitW
  obtain ⟨hy1, hy2⟩ := clampDiv_bounds (qOrZero i.setbackFront)
    (qOrZero i.plotLength - qOrZero i.setbackFront - qOrZero i.setbackBack) itemL candY
    (svgScale i) hs hfitL
  exact ⟨hx1, by linarith, hy1, by linarith⟩

/-- The default interactive plot snapshot: plot 60 × 40, road 30, all
setbacks 5 (buildable envelope 50 × 30 at offset (5, 5)). -/
def dragInputs : PlotInputs :=
  { plotWidth := some 60
    plotLength := some 40
    roadWidth := some 30
    setbackFront := some 5
    setbackBack := some 5
    setbackLeft := some 5
    setbackRight := some 5 }

/-- Claim C1 counterexample: on the default plot (buildable width 50), an
enabled item of width 60 dragged towards the far left is pinned at
`x = setbackLeft = 5`, where its rectangle `[5, 65]` extends 10 ft
beyond the envelope's right edge `x = 55` — so `updateDrag` alone does
not guarantee the rectangle stays inside the envelope. -/
theorem updateDrag_overflow :
    (updateDrag dragInputs 60 6 0 0).x = 5 ∧
    qOrZero dragInputs.plotWidth - qOrZero dragInputs.setbackRight = 55 ∧
    ¬ ((updateDrag dragInputs 60 6 0 0).x + 60
        ≤ qOrZero dragInputs.plotWidth - qOrZero dragInputs.setbackRight) := by
  norm_num [updateDrag, handleDragMove, itemConstraints, svgScale, dragInputs, qOrZero]

/-- Claim C1 witness: the spec's own example — a 10 × 6 item on the default
plot dragged to candidate (0, 0) stays inside the 50 × 30 envelope. -/
theorem updateDrag_within_envelope_witness :
    ((10 : ℚ) ≤ qOrZero dragInputs.plotWidth - qOrZero dragInputs.setbackLeft
        - qOrZero dragInputs.setbackRight) ∧
    (qOrZero dragInputs.setbackLeft ≤ (updateDrag dragInputs 10 6 0 0).x ∧
     (updateDrag dragInputs 10 6 0 0).x + 10
        ≤ qOrZero dragInputs.plotWidth - qOrZero dragInputs.setbackRight ∧
     qOrZero dragInputs.setbackFront ≤ (updateDrag dragInputs 10 6 0 0).y ∧
     (updateDrag dragInputs 10 6 0 0).y + 6
        ≤ qOrZero dragInputs.plotLength - qOrZero dragInputs.setbackBack) :=
  ⟨by norm_num [dragInputs, qOrZero],
   updateDrag_within_envelope dragInputs 10 6 0 0
     (by norm_num [dragInputs, qOrZero]) (by norm_num [dragInputs, qOrZero])
     (by norm_num [dragInputs, qOrZero]) (by norm_num [dragInputs, qOrZero])
     (by norm_num [dragInputs, qOrZero])⟩

/-- An enabled 10 × 10 house at (30, 30). -/
def demoHouse : Item := ⟨true, some 10, some 10, ⟨30, 30⟩⟩

/-- An enabled 10 × 10 parking at (5, 5). -/
def demoParking : Item := ⟨true, some 10, some 10, ⟨5, 5⟩⟩

/-- A disabled 10 × 10 parking at (5, 5). -/
def demoParkingOff : Item := ⟨false, some 10, some 10, ⟨5, 5⟩⟩

/-- Item map with both items enabled. -/
def demoItems : Items := [(.house, demoHouse), (.parking, demoParking)]

/-- Item map where the parking has been disabled. -/
def demoItemsOff : Items := [(.house, demoHouse), (.parking, demoParkingOff)]

/-- Claim C2 witness: dragging the house onto the enabled parking (candidate
(8, 8) against the parking's 10 × 10 rectangle at (5, 5)) leaves the
item map unchanged. -/
theorem handlePositionChange_rejects_overlap_witness :
    getItem demoItems .house = some demoHouse ∧
    demoHouse.enabled = true ∧
    (ItemKey.parking, demoParking) ∈ demoItems ∧
    ItemKey.parking ≠ ItemKey.house ∧
    demoParking.enabled = true ∧
    checkCollision { demoHouse with position := ⟨8, 8⟩ } demoParking = true ∧
    handlePositionChange demoItems .house ⟨8, 8⟩ = demoItems := by
  have h1 : getItem demoItems .house = some demoHouse := rfl
  have h3 : (ItemKey.parking, demoParking) ∈ demoItems := by simp [demoItems]
  have h6 : checkCollision { demoHouse with position := (⟨8, 8⟩ : Pos) } demoParking = true := by
    norm_num [checkCollision, qOrZero, demoHouse, demoParking]
  exact ⟨h1, rfl, h3, by decide, rfl, h6,
    handlePositionChange_rejects_overlap demoItems .house demoHouse ⟨8, 8⟩ .parking demoParking
      h1 rfl h3 (by decide) rfl h6⟩

/-- Claim C9 witness: with the parking disabled, the same drag of the house
into the parking's former rectangle succeeds and the house's
authoritative position becomes (8, 8). -/
theorem handlePositionChange_skips_disabled_witness :
    getItem demoItemsOff .house = some demoHouse ∧
    (ItemKey.parking, demoParkingOff) ∈ demoItemsOff ∧
    demoParkingOff.enabled = false ∧
    checkCollision { demoHouse with position := ⟨8, 8⟩ } demoParkingOff = true ∧
    getItem (handlePositionChange demoItemsOff .house ⟨8, 8⟩) .house
        = some { demoHouse with position := ⟨8, 8⟩ } := by
  have h1 : getItem demoItemsOff .house = some demoHouse := rfl
  have h2 : (ItemKey.parking, demoParkingOff) ∈ demoItemsOff := by simp [demoItemsOff]
  have h4 : checkCollision { demoHouse with position := (⟨8, 8⟩ : Pos) } demoParkingOff = true := by
    norm_num [checkCollision, qOrZero, demoHouse, demoParkingOff]
  have hno : ∀ p ∈ demoItemsOff, p.1 ≠ ItemKey.house → p.2.enabled = true →
      checkCollision { demoHouse with position := (⟨8, 8⟩ : Pos) } p.2 = false := by
    intro p hp hne hen
    rcases (by simpa [demoItemsOff] using hp :
        p = (ItemKey.house, demoHouse) ∨ p = (ItemKey.parking, demoParkingOff)) with rfl | rfl
    · exact absurd rfl hne
    · simp [demoParkingOff] at hen
  exact ⟨h1, h2, rfl, h4,
    (handlePositionChange_skips_disabled demoItemsOff .house demoHouse ⟨8, 8⟩ .parking
      demoParkingOff h1 h2 (by decide) rfl h4 hno).2⟩

/-- An enabled 10 × 10 house at (5, 5). -/
def demo3House : Item := ⟨true, some 10, some 10, ⟨5, 5⟩⟩

/-- An enabled 5 × 5 parking at (20, 5). -/
def demo3Parking : Item := ⟨true, some 5, some 5, ⟨20, 5⟩⟩

/-- A map where widening the house to 20 ft reaches the parking. -/
def demo3Items : Items := [(.house, demo3House), (.parking, demo3Parking)]

/-- Claim C10 witness: widening the house from 10 to 20 ft keeps it inside
the 50 × 30 buildable envelope but makes it overlap the parking, so
`handleItemChange` leaves the map unchanged. -/
theorem handleItemChange_rejects_witness :
    getItem demo3Items .house = some demo3House ∧
    (ItemKey.parking, demo3Parking) ∈ demo3Items ∧
    checkCollision (setDim demo3House .width (some 20)) demo3Parking = true ∧
    handleItemChange demo3Items .house .width (some 20) 50 30 = demo3Items := by
  have h1 : getItem demo3Items .house = some demo3House := rfl
  have h2 : (ItemKey.parking, demo3Parking) ∈ demo3Items := by simp [demo3Items]
  have h3 : checkCollision (setDim demo3House .width (some 20)) demo3Parking = true := by
    norm_num [checkCollision, setDim, qOrZero, demo3House, demo3Parking]
  exact ⟨h1, h2, h3,
    handleItemChange_rejects demo3Items .house demo3House .width (some 20) 50 30 h1
      (Or.inr ⟨(ItemKey.parking, demo3Parking), h2, by decide, rfl, h3⟩)⟩

end PlotApp
